import Mathlib

/-!
Verification of the trading alert bot (strategy scheduler, change detectors,
session lifecycle, report logger). Python floats are embedded as exact
rationals `ℚ`; Python dicts keyed by tradingsymbol are embedded as ordered
association lists with Python dict semantics (insertion order preserved,
update-in-place on an existing key, last write wins).
-/

namespace TradingBot

/-- Python `d[k]` lookup / `k in d` membership on a dict embedded as an
association list: returns the value stored at the first (unique) occurrence
of the key. -/
def dictLookup : List (String × ℚ) → String → Option ℚ
  | [], _ => none
  | (k0, v0) :: rest, k => if k0 = k then some v0 else dictLookup rest k

/-- Python `d[k] = v`: update in place when the key is present, append
otherwise (dicts preserve insertion order). -/
def dictInsert : List (String × ℚ) → String → ℚ → List (String × ℚ)
  | [], k, v => [(k, v)]
  | (k0, v0) :: rest, k, v =>
      if k0 = k then (k, v) :: rest else (k0, v0) :: dictInsert rest k v

/-- Building a fresh Python dict from a sequence of key-value pairs
(as `oi_spurt_screener.run_strategy` builds `current_oi_data` from the
quote items): later occurrences of a key overwrite earlier ones. -/
def buildDict (pairs : List (String × ℚ)) : List (String × ℚ) :=
  pairs.foldl (fun d p => dictInsert d p.1 p.2) []

/-- Python `abs` on a number, written so that it evaluates by kernel
reduction on `ℚ`. -/
def ratAbs (x : ℚ) : ℚ := if x < 0 then -x else x

theorem ratAbs_eq_abs (x : ℚ) : ratAbs x = |x| := by
  rw [ratAbs]
  by_cases h : x < 0
  · simp [h, abs_of_neg h]
  · simp [h, abs_of_nonneg (le_of_not_lt h)]

theorem dictLookup_dictInsert_self (d : List (String × ℚ)) (k : String) (v : ℚ) :
    dictLookup (dictInsert d k v) k = some v := by
  induction d with
  | nil => simp [dictInsert, dictLookup]
  | cons p rest ih =>
      obtain ⟨k0, v0⟩ := p
      by_cases h : k0 = k
      · simp [dictInsert, dictLookup, h]
      · simp [dictInsert, dictLookup, h, ih]

end TradingBot

namespace TradingBot.WilliamsR

/-!
Embedding of `src/strategies/williams_r_alert.py`, `check_alert_condition`
(lines 51-58). The function receives the Williams %R series of one
instrument; `df['willr'].iloc[-1]` is the last element, `.iloc[-2]` the one
before it, and the guard `len(df) > 1` demands at least two points. The
series is embedded as the list of %R values in chronological order, so
`iloc[-1]` and `iloc[-2]` are the first two elements of the reversed list.
-/

/-- Python: `if df is not None and not df.empty and len(df) > 1:
latest = iloc[-1]; previous = iloc[-2];
if latest < threshold and previous >= threshold: return True; return False`. -/
def check_alert_condition (willr : List ℚ) (threshold : ℚ) : Bool :=
  match willr.reverse with
  | latest :: previous :: _ => decide (latest < threshold) && decide (threshold ≤ previous)
  | _ => false

/-- Number of cycles on which the alert fires while the history of one
instrument grows one observation per cycle: on cycle `i` the strategy sees
the prefix `vals.take (i+1)` and calls `check_alert_condition` on it. -/
def countFires (vals : List ℚ) (threshold : ℚ) : Nat :=
  ((List.range vals.length).filter
    (fun i => check_alert_condition (vals.take (i + 1)) threshold)).length

end TradingBot.WilliamsR

namespace TradingBot

open WilliamsR

/-- C1: the edge-cross (fall-below) trigger fires on an observation iff the
previous observation was `≥ threshold` and the current one is `< threshold`;
it never fires on the first observation (histories of length 0 or 1 never
fire), it re-arms whenever the value returns to `≥ threshold`, and over
growing histories the value sequence `[25, 19]` fires exactly once while
`[25, 19, 22, 19]` fires exactly twice (threshold 20). -/
theorem edge_cross_trigger_spec (pre : List ℚ) (a b x t : ℚ) :
    check_alert_condition [] t = false ∧
    check_alert_condition [x] t = false ∧
    check_alert_condition (pre ++ [a, b]) t = (decide (b < t) && decide (t ≤ a)) ∧
    countFires [25, 19] 20 = 1 ∧
    countFires [25, 19, 22, 19] 20 = 2 := by
  refine ⟨rfl, rfl, ?_, by decide, by decide⟩
  simp [check_alert_condition]

end TradingBot

namespace TradingBot.OiScreener

/-!
Embedding of `src/strategies/oi_screener.py`, `check_oi_and_alert`
(lines 70-103). The global `oi_data_cache` dict is passed in and returned
explicitly; the returned `Bool` records whether the alert fired (email,
WhatsApp and `report_logger.log_alert` are all emitted exactly on that
branch). The fetched quote is the `current_oi` argument.
-/

/-- Python: if the symbol is not cached, cache `current_oi` and do not fire;
otherwise with `initial_oi` the cached value: `initial_oi == 0` returns
without firing; else `oi_change_percentage = (current - initial)/initial*100`
fires iff `abs(oi_change_percentage) >= threshold`, and on fire the cache
entry is advanced to `current_oi` (sticky baseline). -/
def check_oi_and_alert (oi_data_cache : List (String × ℚ)) (tradingsymbol : String)
    (current_oi : ℚ) (threshold : ℚ) : List (String × ℚ) × Bool :=
  match dictLookup oi_data_cache tradingsymbol with
  | none => (dictInsert oi_data_cache tradingsymbol current_oi, false)
  | some initial_oi =>
      if initial_oi = 0 then (oi_data_cache, false)
      else
        let oi_change_percentage := (current_oi - initial_oi) / initial_oi * 100
        if threshold ≤ ratAbs oi_change_percentage then
          (dictInsert oi_data_cache tradingsymbol current_oi, true)
        else
          (oi_data_cache, false)

end TradingBot.OiScreener

namespace TradingBot

open OiScreener

/-- C2: for an instrument already cached with nonzero baseline `b`, the
sticky-baseline detector fires iff `|(c - b)/b * 100| ≥ threshold`; exactly
on fire the cached baseline is replaced by `c`, otherwise the cache is
unchanged; with baseline 100 and threshold 5, current 106 fires and advances
the baseline to 106, after which current 110 does not fire. -/
theorem sticky_baseline_fires_iff (cache : List (String × ℚ)) (sym : String) (b c t : ℚ)
    (hb : dictLookup cache sym = some b) (hb0 : b ≠ 0) :
    ((check_oi_and_alert cache sym c t).2 = true ↔ t ≤ |(c - b) / b * 100|) ∧
    ((check_oi_and_alert cache sym c t).2 = true →
      dictLookup (check_oi_and_alert cache sym c t).1 sym = some c) ∧
    ((check_oi_and_alert cache sym c t).2 = false →
      (check_oi_and_alert cache sym c t).1 = cache) ∧
    (check_oi_and_alert [("X", 100)] "X" 106 5).2 = true ∧
    dictLookup (check_oi_and_alert [("X", 100)] "X" 106 5).1 "X" = some 106 ∧
    (check_oi_and_alert (check_oi_and_alert [("X", 100)] "X" 106 5).1 "X" 110 5).2 = false := by
  refine ⟨?_, ?_, ?_,
    by norm_num [check_oi_and_alert, dictLookup, dictInsert, ratAbs],
    by norm_num [check_oi_and_alert, dictLookup, dictInsert, ratAbs],
    by norm_num [check_oi_and_alert, dictLookup, dictInsert, ratAbs]⟩
  · rw [check_oi_and_alert, hb]
    by_cases hfire : t ≤ |(c - b) / b * 100|
    · simp [hb0, ratAbs_eq_abs, hfire]
    · simp [hb0, ratAbs_eq_abs, hfire]
  · intro hfired
    rw [check_oi_and_alert, hb] at hfired ⊢
    by_cases hfire : t ≤ |(c - b) / b * 100|
    · simp [hb0, ratAbs_eq_abs, hfire, dictLookup_dictInsert_self]
    · simp [hb0, ratAbs_eq_abs, hfire] at hfired
  · intro hnot
    rw [check_oi_and_alert, hb] at hnot ⊢
    by_cases hfire : t ≤ |(c - b) / b * 100|
    · simp [hb0, ratAbs_eq_abs, hfire] at hnot
    · simp [hb0, ratAbs_eq_abs, hfire]

/-- Witness for `sticky_baseline_fires_iff` at cache `{X ↦ 100}`,
baseline 100, current 106, threshold 5. -/
theorem sticky_baseline_fires_iff_witness :
    ((check_oi_and_alert [("X", 100)] "X" 106 5).2 = true ↔
      (5 : ℚ) ≤ |((106 : ℚ) - 100) / 100 * 100|) :=
  (sticky_baseline_fires_iff [("X", 100)] "X" 100 106 5 (by norm_num [dictLookup])
    (by norm_num)).1

end TradingBot

namespace TradingBot.OiSpurt

/-!
Embedding of `src/strategies/oi_spurt_screener.py`, `run_strategy`
(lines 135-155). The quote dict returned by `kite.quote` is passed in as the
list of `(tradingsymbol, oi)` items; the global `previous_oi_data` dict is
passed in and the new value (assigned wholesale at line 155,
`previous_oi_data = current_oi_data`) is returned together with the list of
tradingsymbols whose alert fired.
-/

/-- Python condition on one quote item (lines 141-145):
`tradingsymbol in previous_oi_data and previous_oi_data[tradingsymbol] > 0`
and then `oi_change_percent = ((current_oi - prev_oi) / prev_oi) * 100`
with `abs(oi_change_percent) >= oi_change_threshold`. -/
def spurtFires (previous_oi_data : List (String × ℚ)) (tradingsymbol : String)
    (current_oi : ℚ) (threshold : ℚ) : Bool :=
  match dictLookup previous_oi_data tradingsymbol with
  | some prev_oi =>
      decide (0 < prev_oi) &&
        decide (threshold ≤ ratAbs ((current_oi - prev_oi) / prev_oi * 100))
  | none => false

/-- One poll cycle: builds `current_oi_data` from the quote items, fires an
alert for every item whose change against `previous_oi_data` is significant,
then replaces `previous_oi_data` with `current_oi_data` regardless of which
alerts fired. Returns the new `previous_oi_data` and the alerted symbols. -/
def run_strategy_cycle (previous_oi_data quotes : List (String × ℚ))
    (threshold : ℚ) : List (String × ℚ) × List String :=
  (buildDict quotes,
   (quotes.filter (fun q => spurtFires previous_oi_data q.1 q.2 threshold)).map Prod.fst)

end TradingBot.OiSpurt

namespace TradingBot

open OiSpurt

/-- C3: after a rolling-baseline cycle the stored baseline of every observed
instrument equals that cycle's current value, and the new baseline map does
not depend on the previous baselines (hence not on whether alerts fired);
two consecutive 6% jumps (100 → 106 → 112.36) against threshold 5 each fire. -/
theorem rolling_baseline_updates_every_cycle (prev prev2 quotes : List (String × ℚ))
    (t c : ℚ) (ts : String) (h : dictLookup (buildDict quotes) ts = some c) :
    dictLookup (run_strategy_cycle prev quotes t).1 ts = some c ∧
    (run_strategy_cycle prev quotes t).1 = (run_strategy_cycle prev2 quotes t).1 ∧
    (run_strategy_cycle [("X", 100)] [("X", 106)] 5).2 = ["X"] ∧
    (run_strategy_cycle (run_strategy_cycle [("X", 100)] [("X", 106)] 5).1
        [("X", 2809 / 25)] 5).2 = ["X"] := by
  refine ⟨h, rfl, ?_, ?_⟩ <;>
    norm_num [run_strategy_cycle, spurtFires, buildDict, dictLookup, dictInsert,
      ratAbs, List.filter]

/-- Witness for `rolling_baseline_updates_every_cycle` with the single quote
`X ↦ 106`: the stored baseline after the cycle is 106. -/
theorem rolling_baseline_updates_every_cycle_witness :
    dictLookup (run_strategy_cycle [("X", 100)] [("X", 106)] 5).1 "X" = some 106 :=
  (rolling_baseline_updates_every_cycle [("X", 100)] [("X", 100)] [("X", 106)] 5 106 "X"
    (by norm_num [buildDict, dictLookup, dictInsert])).1

/-- C4: a stored baseline of 0 never fires, in both detectors: the sticky
variant returns with cache and fire-state unchanged, and the rolling variant
neither satisfies the fire condition nor alerts that symbol in any cycle. -/
theorem baseline_zero_never_fires (cache : List (String × ℚ)) (sym : String) (c t : ℚ)
    (prev quotes : List (String × ℚ)) (ts : String) :
    (dictLookup cache sym = some 0 →
      OiScreener.check_oi_and_alert cache sym c t = (cache, false)) ∧
    (dictLookup prev ts = some 0 →
      spurtFires prev ts c t = false ∧
      ts ∉ (run_strategy_cycle prev quotes t).2) := by
  constructor
  · intro h
    rw [OiScreener.check_oi_and_alert, h]
    simp
  · intro h
    have hf : ∀ x : ℚ, spurtFires prev ts x t = false := by
      intro x
      rw [spurtFires, h]
      simp
    refine ⟨hf c, ?_⟩
    intro hmem
    rw [run_strategy_cycle] at hmem
    simp only [List.mem_map, List.mem_filter] at hmem
    obtain ⟨q, ⟨hq, hfire⟩, hqts⟩ := hmem
    rw [hqts, hf q.2] at hfire
    exact Bool.false_ne_true hfire

/-- Witness for `baseline_zero_never_fires` at baseline 0, current 50,
threshold 5. -/
theorem baseline_zero_never_fires_witness :
    OiScreener.check_oi_and_alert [("X", 0)] "X" 50 5 = ([("X", 0)], false) ∧
    spurtFires [("X", 0)] "X" 50 5 = false ∧
    "X" ∉ (run_strategy_cycle [("X", 0)] [("X", 50)] 5).2 := by
  have h := baseline_zero_never_fires [("X", 0)] "X" 50 5 [("X", 0)] [("X", 50)] "X"
  exact ⟨h.1 (by norm_num [dictLookup]), (h.2 (by norm_num [dictLookup])).1,
    (h.2 (by norm_num [dictLookup])).2⟩

end TradingBot

namespace TradingBot.ReportLogger

/-!
Embedding of `src/report_logger.py`. The module-global list
`daily_alerts_data` is passed in and returned explicitly.
-/

/-- One row appended by `log_alert` (lines 9-25): timestamp string, strategy
name, alert details. -/
structure AlertEvent where
  timestamp : String
  strategy : String
  details : String
deriving DecidableEq

/-- log_alert: `daily_alerts_data.append({...})`. -/
def log_alert (daily_alerts_data : List AlertEvent) (e : AlertEvent) : List AlertEvent :=
  daily_alerts_data ++ [e]

/-- generate_daily_csv_report (lines 27-49): with an empty buffer it logs and
returns without writing; otherwise it writes the buffer rows to the day's
CSV path (overwriting any file already there). Nothing in the function
mutates `daily_alerts_data`. Returns the rows written (`none` when no file
was written) together with the buffer after the call. -/
def generate_daily_csv_report (daily_alerts_data : List AlertEvent) :
    Option (List AlertEvent) × List AlertEvent :=
  if daily_alerts_data = [] then (none, daily_alerts_data)
  else (some daily_alerts_data, daily_alerts_data)

/-- reset_daily_alerts (lines 51-57): `daily_alerts_data = []`. -/
def reset_daily_alerts (daily_alerts_data : List AlertEvent) : List AlertEvent :=
  let _ := daily_alerts_data
  []

/-- Concrete alert row used in counterexamples and witnesses. -/
def sampleEvent : AlertEvent :=
  ⟨"2026-01-02 14:00:00", "oi_screener", "OI Alert"⟩

end TradingBot.ReportLogger

namespace TradingBot.Main

/-!
Embedding of the module-global mutable state the `main.py` lifecycle loop
(lines 70-93) acts on, and of the side effects the loop performs at the two
session edges. `strategy_runner` itself is embedded separately below.
-/

/-- Mutable module-global state of the process: the report buffer
(`report_logger.daily_alerts_data`), the sticky OI cache
(`oi_screener.oi_data_cache`) and the rolling previous-OI map
(`oi_spurt_screener.previous_oi_data`). -/
structure SystemState where
  daily_alerts_data : List ReportLogger.AlertEvent
  oi_data_cache : List (String × ℚ)
  previous_oi_data : List (String × ℚ)
deriving DecidableEq

/-- CLOSED→OPEN edge (main.py lines 75-77): the only side effect is
`report_logger.reset_daily_alerts()`. No strategy cache is touched here:
`oi_screener` clears `oi_data_cache` itself inside its next cycle when the
date changes, and nothing anywhere clears
`oi_spurt_screener.previous_oi_data`. -/
def marketOpenTransition (s : SystemState) : SystemState :=
  { s with daily_alerts_data := ReportLogger.reset_daily_alerts s.daily_alerts_data }

/-- OPEN→CLOSED edge (main.py lines 79-81): the only side effect is
`report_logger.generate_daily_csv_report()`. Returns the exported rows and
the state after the edge. -/
def marketCloseTransition (s : SystemState) :
    Option (List ReportLogger.AlertEvent) × SystemState :=
  ((ReportLogger.generate_daily_csv_report s.daily_alerts_data).1,
   { s with
      daily_alerts_data := (ReportLogger.generate_daily_csv_report s.daily_alerts_data).2 })

end TradingBot.Main

namespace TradingBot

/-- C5 (code refutation at the failing input): the CLOSED→OPEN transition
resets only the daily report buffer; both strategy caches survive it, and an
instrument the spurt screener cached on the previous day (baseline 100)
fires on its very first post-open observation (current 106, threshold 5). -/
theorem session_open_keeps_spurt_cache :
    (Main.marketOpenTransition
        ⟨[ReportLogger.sampleEvent], [("X", 99)], [("X", 100)]⟩).previous_oi_data
      = [("X", 100)] ∧
    (Main.marketOpenTransition
        ⟨[ReportLogger.sampleEvent], [("X", 99)], [("X", 100)]⟩).oi_data_cache
      = [("X", 99)] ∧
    (Main.marketOpenTransition
        ⟨[ReportLogger.sampleEvent], [("X", 99)], [("X", 100)]⟩).daily_alerts_data
      = [] ∧
    "X" ∈ (OiSpurt.run_strategy_cycle
        (Main.marketOpenTransition
          ⟨[ReportLogger.sampleEvent], [("X", 99)], [("X", 100)]⟩).previous_oi_data
        [("X", 106)] 5).2 := by
  refine ⟨rfl, rfl, rfl, ?_⟩
  norm_num [Main.marketOpenTransition, ReportLogger.reset_daily_alerts,
    OiSpurt.run_strategy_cycle, OiSpurt.spurtFires, buildDict, dictLookup,
    dictInsert, ratAbs, List.filter]

open ReportLogger Main

/-- C6 (counterexample): after the OPEN→CLOSED side effect the day's alert
buffer is not cleared (it still holds the exported event), and performing
the side effect a second time with no new events re-exports the very same
event sequence. -/
theorem eod_export_not_cleared_counterexample :
    (marketCloseTransition ⟨[sampleEvent], [], []⟩).2.daily_alerts_data ≠ [] ∧
    (marketCloseTransition (marketCloseTransition ⟨[sampleEvent], [], []⟩).2).1
      = some [sampleEvent] := by
  constructor <;>
    simp [marketCloseTransition, generate_daily_csv_report]

/-- C6 (amended): the OPEN→CLOSED side effect exports the day's alert buffer
(nothing when it is empty, the full buffer otherwise) and leaves the buffer
unchanged; repeating the side effect with no new events in between exports
the identical rows again to the same per-day artifact (an overwrite, not an
append) and appends nothing to the buffer; the buffer is cleared only by
`reset_daily_alerts` at the next CLOSED→OPEN transition. -/
theorem eod_export_leaves_buffer (s : Main.SystemState) :
    (marketCloseTransition s).2.daily_alerts_data = s.daily_alerts_data ∧
    (s.daily_alerts_data = [] → (marketCloseTransition s).1 = none) ∧
    (s.daily_alerts_data ≠ [] →
      (marketCloseTransition s).1 = some s.daily_alerts_data) ∧
    marketCloseTransition (marketCloseTransition s).2 = marketCloseTransition s ∧
    (marketOpenTransition s).daily_alerts_data = [] := by
  by_cases he : s.daily_alerts_data = [] <;>
    simp [marketCloseTransition, marketOpenTransition, generate_daily_csv_report,
      reset_daily_alerts, he]

/-- Witness for `eod_export_leaves_buffer` at a one-event buffer. -/
theorem eod_export_leaves_buffer_witness :
    (marketCloseTransition ⟨[sampleEvent], [], []⟩).1 = some [sampleEvent] :=
  (eod_export_leaves_buffer ⟨[sampleEvent], [], []⟩).2.2.1 (by simp)

end TradingBot

namespace TradingBot.Runner

/-!
Embedding of `strategy_runner` (main.py lines 30-42): a `while True` loop
whose body is `try: if is_market_open(): run_strategy(); time.sleep(p)
except Exception: log; time.sleep(p)`. A run is modelled on a finite
schedule of cycle environments, one per loop iteration, recording what the
external world does on that iteration.
-/

/-- What the world does on one loop iteration: the market check returns
closed, or it returns open and `run_strategy()` either returns normally or
raises. -/
inductive CycleEnv where
  | closed
  | openOk
  | openRaises
deriving DecidableEq

/-- Observable events of the thread: the `is_market_open()` call with its
result, a completed `run_strategy()` call, an exception caught and logged by
the `except` branch, and a `time.sleep(poll_interval)`. -/
inductive RunnerEvent where
  | checkedMarket (isOpen : Bool)
  | ranStrategy
  | caughtError
  | slept
deriving DecidableEq

/-- Events of one iteration of the loop body: the market check comes first;
when open, `run_strategy()` runs; an exception from it is caught by the
`except Exception` branch, logged, and followed by the sleep there;
otherwise the normal `time.sleep(poll_interval)` follows. -/
def cycleEvents : CycleEnv → List RunnerEvent
  | .closed => [.checkedMarket false, .slept]
  | .openOk => [.checkedMarket true, .ranStrategy, .slept]
  | .openRaises => [.checkedMarket true, .caughtError, .slept]

/-- strategy_runner on a finite schedule: the `while True` loop performs
every scheduled iteration in order; no statement of the body breaks out of
or returns from the loop. -/
def strategy_runner : List CycleEnv → List RunnerEvent
  | [] => []
  | e :: rest => cycleEvents e ++ strategy_runner rest

/-- Behaviour the claim describes for the task loop, written from the claim
wording for comparison with `strategy_runner`: the loop returns control at
the first cycle that observes the session CLOSED, after the observation but
before any cycle work. -/
def runnerClaimedTermination : List CycleEnv → List RunnerEvent
  | [] => []
  | .closed :: _ => [.checkedMarket false]
  | e :: rest => cycleEvents e ++ runnerClaimedTermination rest

theorem strategy_runner_append (a b : List CycleEnv) :
    strategy_runner (a ++ b) = strategy_runner a ++ strategy_runner b := by
  induction a with
  | nil => simp [strategy_runner]
  | cons e rest ih => simp [strategy_runner, ih]

theorem strategy_runner_count_slept (env : List CycleEnv) :
    (strategy_runner env).count RunnerEvent.slept = env.length := by
  induction env with
  | nil => simp [strategy_runner]
  | cons e rest ih =>
      rw [strategy_runner, List.count_append, ih]
      cases e <;> simp [cycleEvents, Nat.add_comm]

theorem strategy_runner_count_ran (env : List CycleEnv) :
    (strategy_runner env).count RunnerEvent.ranStrategy =
      env.count CycleEnv.openOk := by
  induction env with
  | nil => simp [strategy_runner]
  | cons e rest ih =>
      rw [strategy_runner, List.count_append, ih, List.count_cons]
      cases e <;> simp [cycleEvents, Nat.add_comm]

/-- main.py lines 62-67: one daemon thread per strategy module, each running
`strategy_runner` with its own module; the loops share no state. -/
def runTwoTasks (envA envB : List CycleEnv) : List RunnerEvent × List RunnerEvent :=
  (strategy_runner envA, strategy_runner envB)

end TradingBot.Runner

namespace TradingBot

open Runner

/-- C7 (counterexample): on the schedule closed-then-open the runner does not
return at the closed observation; it sleeps and performs the following open
cycle, diverging from the claimed terminate-at-close behaviour. -/
theorem runner_no_termination_counterexample :
    strategy_runner [CycleEnv.closed, CycleEnv.openOk] ≠
      runnerClaimedTermination [CycleEnv.closed, CycleEnv.openOk] ∧
    strategy_runner [CycleEnv.closed, CycleEnv.openOk] =
      [.checkedMarket false, .slept, .checkedMarket true, .ranStrategy, .slept] ∧
    runnerClaimedTermination [CycleEnv.closed, CycleEnv.openOk] =
      [.checkedMarket false] := by
  refine ⟨?_, rfl, rfl⟩
  decide

/-- C7 (amended): the run loop never returns control; the session state is
observed at the top of every cycle before any cycle work, a cycle that
observes CLOSED performs no strategy work and just sleeps, and the loop then
carries on with the rest of the schedule; every scheduled cycle completes
(one sleep per cycle, whatever the session does). -/
theorem runner_skips_closed_cycles (pre post env : List CycleEnv) :
    strategy_runner (pre ++ CycleEnv.closed :: post) =
      strategy_runner pre ++
        [RunnerEvent.checkedMarket false, RunnerEvent.slept] ++ strategy_runner post ∧
    (strategy_runner env).count RunnerEvent.slept = env.length := by
  refine ⟨?_, strategy_runner_count_slept env⟩
  rw [strategy_runner_append]
  simp [strategy_runner, cycleEvents]

/-- C8: a cycle whose `run_strategy()` raises is caught at the task boundary,
logged, and followed by the normal poll-interval sleep, after which the loop
carries on with the rest of the schedule exactly as it would have; a task
raising on every cycle still completes every scheduled cycle; and another
task's trace is computed from that task's own schedule alone, so its
successful cycles run and alert unaffected. -/
theorem failing_cycle_isolated (pre post envA envB : List CycleEnv) (n : Nat) :
    strategy_runner (pre ++ CycleEnv.openRaises :: post) =
      strategy_runner pre ++
        [RunnerEvent.checkedMarket true, RunnerEvent.caughtError, RunnerEvent.slept] ++
        strategy_runner post ∧
    (strategy_runner (List.replicate n CycleEnv.openRaises)).count RunnerEvent.slept
      = n ∧
    (runTwoTasks envA envB).2 = strategy_runner envB ∧
    ((runTwoTasks (List.replicate n CycleEnv.openRaises) envB).2).count
        RunnerEvent.ranStrategy = envB.count CycleEnv.openOk := by
  refine ⟨?_, ?_, rfl, strategy_runner_count_ran envB⟩
  · rw [strategy_runner_append]
    simp [strategy_runner, cycleEvents]
  · rw [strategy_runner_count_slept, List.length_replicate]

end TradingBot

namespace TradingBot.Main

/-!
Embedding of `main()` startup (main.py lines 45-67). `strategy_modules` is
the list returned by `get_active_strategy_modules()` (the names from the
config whose module import succeeded).
-/

/-- Outcome of running `main()` up to the scheduling decision: how many
strategy threads were started, whether scheduling began, and the process
exit status. A plain `return` from `main()` ends the script with the normal
zero status; no `sys.exit` call appears anywhere in the program, and the
later lifecycle loop only ever leaves via `break` on KeyboardInterrupt,
also status zero. -/
structure StartupResult where
  threadsStarted : Nat
  schedulingBegan : Bool
  exitCode : Nat
deriving DecidableEq

/-- Exit status of a Python process that ends without `sys.exit` and without
an uncaught exception. -/
def normalExitCode : Nat := 0

/-- main.py lines 53-56: `if not strategy_modules: logging.error(...);
return` — with zero resolvable strategies the function returns before any
thread is created; otherwise lines 62-67 start one daemon thread per
module. -/
def mainStartup (strategy_modules : List String) : StartupResult :=
  if strategy_modules = [] then
    { threadsStarted := 0, schedulingBegan := false, exitCode := normalExitCode }
  else
    { threadsStarted := strategy_modules.length, schedulingBegan := true,
      exitCode := normalExitCode }

end TradingBot.Main

namespace TradingBot

/-- C9 (counterexample): with zero resolvable strategies the process does
abort before any scheduling, but it exits with the normal zero status — the
configuration failure does not change the process exit status as the claim
asserts. -/
theorem zero_strategies_exit_status_counterexample :
    (Main.mainStartup []).schedulingBegan = false ∧
    (Main.mainStartup []).threadsStarted = 0 ∧
    (Main.mainStartup []).exitCode = Main.normalExitCode := by
  refine ⟨rfl, rfl, rfl⟩

/-- C9 (amended): with zero resolvable strategies the process aborts before
any scheduling begins — no strategy thread is started — after logging an
error, but the exit status is the normal zero status; no failure class
changes the process exit status. -/
theorem zero_strategies_abort_before_scheduling (ms : List String) :
    (ms = [] → Main.mainStartup ms =
      { threadsStarted := 0, schedulingBegan := false,
        exitCode := Main.normalExitCode }) ∧
    (ms ≠ [] → (Main.mainStartup ms).schedulingBegan = true ∧
      (Main.mainStartup ms).threadsStarted = ms.length) ∧
    (Main.mainStartup ms).exitCode = Main.normalExitCode := by
  by_cases h : ms = [] <;> simp [Main.mainStartup, h]

/-- Witness for `zero_strategies_abort_before_scheduling` at the empty and a
one-strategy module list. -/
theorem zero_strategies_abort_before_scheduling_witness :
    Main.mainStartup [] =
      { threadsStarted := 0, schedulingBegan := false,
        exitCode := Main.normalExitCode } ∧
    (Main.mainStartup ["williams_r_alert"]).schedulingBegan = true :=
  ⟨(zero_strategies_abort_before_scheduling []).1 rfl,
   ((zero_strategies_abort_before_scheduling ["williams_r_alert"]).2.1
      (by simp)).1⟩

end TradingBot

namespace TradingBot.Utils

/-!
Embedding of `is_market_open` (utils.py lines 6-26). All datetimes in the
function live on the same local calendar day, so comparing them compares
their offsets from that day's midnight; `now.replace(hour=h, minute=m,
second=0, microsecond=0)` is the offset `boundaryMicros h m`.
-/

/-- Microseconds after local midnight of the instant at hour `h`, minute
`m`, second 0, microsecond 0. -/
def boundaryMicros (h m : Nat) : Nat := ((h * 60 + m) * 60) * 1000000

/-- Python: `if now.weekday() >= 5: return False;
return market_open <= now <= market_close`, with `market_open` and
`market_close` built by `now.replace(...)` at second 0, microsecond 0.
`weekday` is 0 for Monday through 6 for Sunday; `nowMicros` is the offset of
`now` from local midnight in microseconds. -/
def is_market_open (weekday nowMicros : Nat)
    (market_open_hour market_open_minute : Nat)
    (market_close_hour market_close_minute : Nat) : Bool :=
  if 5 ≤ weekday then false
  else
    decide (boundaryMicros market_open_hour market_open_minute ≤ nowMicros) &&
      decide (nowMicros ≤ boundaryMicros market_close_hour market_close_minute)

end TradingBot.Utils

namespace TradingBot

open Utils

/-- C10: on a trading weekday (Monday–Friday) the market-open check is
inclusive at both session boundaries — true at exactly the configured open
instant and at exactly the configured close instant — and false strictly
before the open instant and strictly after the close instant. -/
theorem market_open_check_boundary_inclusive
    (wd oh om ch cm now : Nat) (hwd : wd < 5)
    (hwin : boundaryMicros oh om ≤ boundaryMicros ch cm) :
    is_market_open wd (boundaryMicros oh om) oh om ch cm = true ∧
    is_market_open wd (boundaryMicros ch cm) oh om ch cm = true ∧
    (now < boundaryMicros oh om → is_market_open wd now oh om ch cm = false) ∧
    (boundaryMicros ch cm < now → is_market_open wd now oh om ch cm = false) := by
  have hwd5 : ¬ 5 ≤ wd := Nat.not_le.mpr hwd
  refine ⟨?_, ?_, ?_, ?_⟩
  · simp [is_market_open, hwd5, hwin]
  · simp [is_market_open, hwd5, hwin]
  · intro hlt
    simp [is_market_open, hwd5, Nat.not_le.mpr hlt]
  · intro hlt
    simp [is_market_open, hwd5, Nat.not_le.mpr hlt]

/-- Witness for `market_open_check_boundary_inclusive` on a Monday with the
NSE window 9:15-15:30: true at the exact open instant, false at midnight. -/
theorem market_open_check_boundary_inclusive_witness :
    is_market_open 0 (boundaryMicros 9 15) 9 15 15 30 = true ∧
    is_market_open 0 0 9 15 15 30 = false := by
  have h := market_open_check_boundary_inclusive 0 9 15 15 30 0
    (by decide) (by decide)
  exact ⟨h.1, h.2.2.1 (by decide)⟩

end TradingBot
